import Mathlib

/-
Shallow embedding of the infinite-scroll pagination widget of this
repository.  The repository contains two variants of the widget:
namespace IS models src/src/IS.tsx and namespace P0 models
src/unnamed/part_000.  Shared helpers (the geometry functions, the offset
computation inside the scroll listener, the children array and the wheel
listener) are textually identical in the two variants and are defined once.

DOM elements are modelled by a plain inductive type: a value is either the
null reference or an element carrying the geometry fields the widget reads
(offsetTop, offsetHeight, scrollHeight) together with its offsetParent.
The inductive structure makes every offsetParent chain finite and
null-terminated, which is exactly the acyclicity assumption of the DOM.
Pixel quantities are modelled as integers.
-/

inductive DOMElem : Type where
  | null : DOMElem
  | mk (offsetTop offsetHeight scrollHeight : Int) (offsetParent : DOMElem) : DOMElem
  deriving DecidableEq

/-- Truthiness test of an element reference: `el` in a boolean position of the
source is false exactly on the null reference. -/
def DOMElem.isNull : DOMElem → Bool
  | .null => true
  | .mk _ _ _ _ => false

/-- Accessor for offsetTop.  The null case is never reached by the widget
(every read is guarded by a null check in the source); it returns 0 only to
keep the accessor total. -/
def DOMElem.offsetTop : DOMElem → Int
  | .null => 0
  | .mk t _ _ _ => t

/-- Accessor for offsetHeight; the null case is unreachable, as for
offsetTop. -/
def DOMElem.offsetHeight : DOMElem → Int
  | .null => 0
  | .mk _ h _ _ => h

/-- Accessor for scrollHeight; the null case is unreachable, as for
offsetTop. -/
def DOMElem.scrollHeight : DOMElem → Int
  | .null => 0
  | .mk _ _ s _ => s

/-- Accessor for offsetParent; the offsetParent of the null reference is
never read by the widget (the visibility check short-circuits on a null
element). -/
def DOMElem.offsetParent : DOMElem → DOMElem
  | .null => .null
  | .mk _ _ _ p => p

/-- Embedding of calculateTopPosition (IS.tsx lines 122-127, part_000 lines
126-131): a null element contributes 0, otherwise the element's offsetTop
plus the recursive value at its offsetParent.  The two variants differ only
in the spelling of the null test (falsiness versus an equality with null),
which coincide on element references. -/
def calculateTopPosition : DOMElem → Int
  | .null => 0
  | .mk t _ _ p => t + calculateTopPosition p

/-- Embedding of calculateOffset (IS.tsx lines 129-135, part_000 lines
133-139): 0 on a null element, otherwise the cumulative top position plus
offsetHeight minus the given scrollTop minus window.innerHeight.  The
ambient global window.innerHeight is passed explicitly. -/
def calculateOffset (el : DOMElem) (scrollTop windowInnerHeight : Int) : Int :=
  match el with
  | .null => 0
  | .mk t h s p => calculateTopPosition (.mk t h s p) + (h - scrollTop - windowInnerHeight)

/-- Configuration surface of the widget, restricted to the fields the
trigger and lifecycle logic reads.  hasLoadMore records whether a loadMore
callback function was supplied (the source tests typeof loadMore at the
call site), hasLoader whether a loader node was supplied. -/
structure Config where
  hasMore : Bool
  initialLoad : Bool
  isReverse : Bool
  useWindow : Bool
  threshold : Int
  hasLoadMore : Bool
  hasLoader : Bool
  deriving DecidableEq

/-- Geometry visible to one evaluation of the scroll listener: the widget's
container element (scrollComponentRef.current), the scroll parent's
scrollTop, clientHeight and scrollHeight, the window's pageYOffset
(undefined modelled as none) with the document scrollTop fallback, and the
window's innerHeight. -/
structure ScrollEnv where
  el : DOMElem
  parentScrollTop : Int
  parentClientHeight : Int
  parentScrollHeight : Int
  pageYOffset : Option Int
  docScrollTop : Int
  windowInnerHeight : Int
  deriving DecidableEq

/-- Window scroll position as read by the listener: pageYOffset when it is
defined, otherwise the document element's scrollTop (IS.tsx line 163,
part_000 line 166). -/
def windowScrollTop (env : ScrollEnv) : Int :=
  match env.pageYOffset with
  | some y => y
  | none => env.docScrollTop

/-- Offset computation inside scrollListener, identical in the two variants
(IS.tsx lines 160-173, part_000 lines 163-176): window mode uses the window
scroll position directly (reverse) or calculateOffset (forward); container
mode uses the scroll parent's scrollTop (reverse) or the element's
scrollHeight minus the parent's scrollTop and clientHeight (forward). -/
def scrollListenerOffset (cfg : Config) (env : ScrollEnv) : Int :=
  if cfg.useWindow then
    let scrollTop := windowScrollTop env
    if cfg.isReverse then scrollTop
    else calculateOffset env.el scrollTop env.windowInnerHeight
  else if cfg.isReverse then
    env.parentScrollTop
  else
    env.el.scrollHeight - env.parentScrollTop - env.parentClientHeight

/-- Events the widget registers on its scroll target. -/
inductive DOMEvent : Type where
  | mousewheel : DOMEvent
  | scroll : DOMEvent
  | resize : DOMEvent
  deriving DecidableEq

/-- Wheel event record; deltaY is the vertical scroll delta of the event. -/
structure WheelEvent where
  deltaY : Int
  deriving DecidableEq

/-- Embedding of mousewheelListener (IS.tsx lines 146-153, part_000 lines
149-155); the result records whether preventDefault was called.  The source
calls it exactly when the event's deltaY is strictly equal to 1 and passive
listeners are unsupported. -/
def mousewheelListener (passiveSupported : Bool) (e : WheelEvent) : Bool :=
  if e.deltaY = 1 ∧ passiveSupported = false then true else false

/-- Children of the rendered container. -/
inductive RenderChild : Type where
  | childContent : RenderChild
  | loaderContent : RenderChild
  deriving DecidableEq

/-- Embedding of the childrenArray construction, identical in the two
variants (IS.tsx lines 248-253, part_000 lines 240-245): the loader is
appended (or prepended in reverse mode) only when hasMore holds and a
loader was supplied. -/
def childrenArray (cfg : Config) : List RenderChild :=
  let arr : List RenderChild := [RenderChild.childContent]
  if cfg.hasMore then
    if cfg.hasLoader then
      if cfg.isReverse then RenderChild.loaderContent :: arr
      else arr ++ [RenderChild.loaderContent]
    else arr
  else arr

/-- Embedding of the pageLoaded re-initialization on mount and on every
pageStart change, identical in the two variants (IS.tsx line 227, part_000
line 208): the counter becomes 0 when pageStart is the sentinel -1 and
pageStart itself otherwise. -/
def pageLoadedInit (pageStart : Int) : Int :=
  if pageStart = -1 then 0 else pageStart

namespace IS

/-- Mutable widget state of the IS.tsx variant: the page counter, the
pending-load flag, the before-trigger geometry snapshot and whether the
scroll and resize listeners are currently attached (this variant detaches
them inside the trigger). -/
structure State where
  pageLoaded : Int
  isLoadMore : Bool
  beforeScrollHeight : Int
  beforeScrollTop : Int
  attached : Bool
  deriving DecidableEq

/-- Embedding of scrollListener of IS.tsx (lines 155-186).  The trigger
condition at line 176 is strict: offset < Number(threshold), conjoined with
the truthiness of the element and a non-null offsetParent.  On trigger the
listeners are detached, the parent's scrollHeight and scrollTop are
snapshotted, and if a loadMore function was supplied the counter is
pre-incremented and passed to it.  The returned list collects the arguments
of the loadMore calls made by this evaluation. -/
def scrollListener (cfg : Config) (env : ScrollEnv) (s : State) : State × List Int :=
  let offset := scrollListenerOffset cfg env
  if offset < cfg.threshold ∧ env.el.isNull = false ∧ env.el.offsetParent.isNull = false then
    let s1 : State :=
      { s with attached := false
               beforeScrollHeight := env.parentScrollHeight
               beforeScrollTop := env.parentScrollTop }
    if cfg.hasLoadMore then
      ({ s1 with pageLoaded := s1.pageLoaded + 1, isLoadMore := true }, [s1.pageLoaded + 1])
    else (s1, [])
  else (s, [])

/-- Embedding of attachScrollListener of IS.tsx (lines 187-205): when
hasMore is false or no parent element resolves, the function returns before
registering anything; otherwise the mousewheel, scroll and resize listeners
are added to the scroll target.  The result is the list of events
registered by the call. -/
def attachScrollListener (cfg : Config) (hasParentElement : Bool) : List DOMEvent :=
  if cfg.hasMore = false ∨ hasParentElement = false then []
  else [DOMEvent.mousewheel, DOMEvent.scroll, DOMEvent.resize]

/-- Embedding of the second useEffect of IS.tsx (lines 235-246).  The
reverse-compensation block in its body (lines 236-240) is commented out in
the source, so apart from listener churn the effect leaves both the scroll
position and the widget state unchanged.  The result pairs the scroll
position after the effect with the state after the effect. -/
def postRenderEffect (_cfg : Config) (s : State) (_newScrollHeight curScrollTop : Int) :
    Int × State :=
  (curScrollTop, s)

end IS

namespace P0

/-- Mutable widget state of the part_000 variant, held in refs:
pageLoadedRef, isLoadMoreRef and beforeSizeRef (scrollHeight and scrollTop
fields). -/
structure State where
  pageLoaded : Int
  isLoadMore : Bool
  beforeScrollHeight : Int
  beforeScrollTop : Int
  deriving DecidableEq

/-- Embedding of scrollListener of part_000 (lines 157-191).  The trigger
condition at line 179 is non-strict: offset <= Number(threshold), conjoined
with the truthiness of the element and a non-null offsetParent.  On trigger,
in reverse mode the element's scrollHeight and the just-computed offset are
snapshotted into beforeSizeRef; then, if a loadMore function was supplied,
the counter is pre-incremented and passed to it.  The returned list
collects the arguments of the loadMore calls made by this evaluation. -/
def scrollListener (cfg : Config) (env : ScrollEnv) (s : State) : State × List Int :=
  let offset := scrollListenerOffset cfg env
  if offset ≤ cfg.threshold ∧ env.el.isNull = false ∧ env.el.offsetParent.isNull = false then
    let s1 : State :=
      if cfg.isReverse then
        { s with beforeScrollHeight := env.el.scrollHeight, beforeScrollTop := offset }
      else s
    if cfg.hasLoadMore then
      ({ s1 with pageLoaded := s1.pageLoaded + 1, isLoadMore := true }, [s1.pageLoaded + 1])
    else (s1, [])
  else (s, [])

/-- Embedding of attachScrollListener of part_000 (lines 192-200).  The
hasMore guard (lines 193-195) is commented out in the source, so the three
listeners are registered on the scroll container regardless of the
configuration.  The result is the list of events registered by the call. -/
def attachScrollListener (_cfg : Config) : List DOMEvent :=
  [DOMEvent.mousewheel, DOMEvent.scroll, DOMEvent.resize]

/-- Embedding of the second useEffect of part_000 (lines 223-238): when the
widget is in reverse mode and a load is pending, the scroll container's
position is set to the element's new scrollHeight minus the snapshotted
scrollHeight plus the snapshotted offset, and the pending flag is cleared
(the scrollTo and scrollTop branches of the source assign the same value).
Otherwise the scroll position and the state are unchanged.  The result
pairs the scroll position after the effect with the state after the
effect. -/
def reverseCompensationEffect (cfg : Config) (s : State) (newScrollHeight curScrollTop : Int) :
    Int × State :=
  if cfg.isReverse = true ∧ s.isLoadMore = true then
    (newScrollHeight - s.beforeScrollHeight + s.beforeScrollTop, { s with isLoadMore := false })
  else (curScrollTop, s)

/-- Folding scrollListener over a sequence of scroll or resize events,
accumulating the loadMore calls in order. -/
def runScrollEvents (cfg : Config) : State → List ScrollEnv → State × List Int
  | s, [] => (s, [])
  | s, env :: rest =>
    let r1 := scrollListener cfg env s
    let r2 := runScrollEvents cfg r1.1 rest
    (r2.1, r1.2 ++ r2.2)

end P0

/-
Concrete inputs used by counterexamples and witnesses.
-/

/-- Forward container-mode configuration with the default threshold 250 and a
loadMore callback supplied. -/
def cexC1cfg : Config :=
  { hasMore := true, initialLoad := true, isReverse := false, useWindow := false,
    threshold := 250, hasLoadMore := true, hasLoader := false }

/-- Geometry placing the computed offset exactly at the threshold: the
element's scrollHeight 500 minus the parent's scrollTop 100 minus the
parent's clientHeight 150 gives offset 250, and the element is visible. -/
def cexC1env : ScrollEnv :=
  { el := .mk 0 0 500 (.mk 0 0 600 .null), parentScrollTop := 100,
    parentClientHeight := 150, parentScrollHeight := 600,
    pageYOffset := some 0, docScrollTop := 0, windowInnerHeight := 0 }

/-- Freshly mounted state of the IS.tsx variant. -/
def cexC1state : IS.State :=
  { pageLoaded := 0, isLoadMore := false, beforeScrollHeight := 0,
    beforeScrollTop := 0, attached := true }

/-- Configuration with hasMore set to false and a loader supplied. -/
def cexC2cfg : Config :=
  { hasMore := false, initialLoad := true, isReverse := false, useWindow := true,
    threshold := 250, hasLoadMore := true, hasLoader := true }

/-- Reverse-mode configuration of the IS.tsx variant. -/
def cexC4cfg : Config :=
  { hasMore := true, initialLoad := true, isReverse := true, useWindow := false,
    threshold := 250, hasLoadMore := true, hasLoader := false }

/-- State of the IS.tsx variant right after a reverse-mode trigger: the
pending flag is set and a geometry snapshot is stored. -/
def cexC4state : IS.State :=
  { pageLoaded := 1, isLoadMore := true, beforeScrollHeight := 40,
    beforeScrollTop := 10, attached := true }

/-- Reverse container-mode configuration of the part_000 variant. -/
def witC4cfg : Config :=
  { hasMore := true, initialLoad := true, isReverse := true, useWindow := false,
    threshold := 250, hasLoadMore := true, hasLoader := false }

/-- Reverse container-mode geometry: the parent's scrollTop 100 is within the
threshold and the element (scrollHeight 500) is visible. -/
def witC4env : ScrollEnv :=
  { el := .mk 0 0 500 (.mk 0 0 600 .null), parentScrollTop := 100,
    parentClientHeight := 150, parentScrollHeight := 600,
    pageYOffset := some 0, docScrollTop := 0, windowInnerHeight := 0 }

/-- Freshly mounted state of the part_000 variant. -/
def witC4state : P0.State :=
  { pageLoaded := 0, isLoadMore := false, beforeScrollHeight := 0, beforeScrollTop := 0 }

/-- Forward window-mode configuration. -/
def cexC5cfg : Config :=
  { hasMore := true, initialLoad := true, isReverse := false, useWindow := true,
    threshold := 250, hasLoadMore := true, hasLoader := false }

/-- Element whose offsetHeight (10) and scrollHeight (20) differ, scrolled to
the document top. -/
def cexC5env : ScrollEnv :=
  { el := .mk 0 10 20 .null, parentScrollTop := 0, parentClientHeight := 0,
    parentScrollHeight := 0, pageYOffset := some 0, docScrollTop := 0,
    windowInnerHeight := 0 }

/-- Forward window-mode geometry with a nested offsetParent chain and a
nonzero window scroll position. -/
def witC5env : ScrollEnv :=
  { el := .mk 7 40 80 (.mk 5 0 0 .null), parentScrollTop := 0, parentClientHeight := 0,
    parentScrollHeight := 0, pageYOffset := some 3, docScrollTop := 9,
    windowInnerHeight := 11 }

/-- Forward container-mode configuration. -/
def cexC6cfg : Config :=
  { hasMore := true, initialLoad := true, isReverse := false, useWindow := false,
    threshold := 250, hasLoadMore := true, hasLoader := false }

/-- Geometry whose element scrollHeight (100) differs from the scroll
parent's scrollHeight (150). -/
def cexC6env : ScrollEnv :=
  { el := .mk 0 0 100 .null, parentScrollTop := 0, parentClientHeight := 50,
    parentScrollHeight := 150, pageYOffset := some 0, docScrollTop := 0,
    windowInnerHeight := 0 }

/-- Forward container-mode trigger geometry used by witnesses: offset
500 - 100 - 150 = 250 is strictly below a threshold of 300 and the element
is visible. -/
def witC3env : ScrollEnv :=
  { el := .mk 0 0 500 (.mk 0 0 600 .null), parentScrollTop := 100,
    parentClientHeight := 150, parentScrollHeight := 600,
    pageYOffset := some 0, docScrollTop := 0, windowInnerHeight := 0 }

/-- Forward container-mode configuration with threshold 300 and a loadMore
callback supplied. -/
def witC3cfg : Config :=
  { hasMore := true, initialLoad := true, isReverse := false, useWindow := false,
    threshold := 300, hasLoadMore := true, hasLoader := false }

/-- Freshly mounted state of the IS.tsx variant. -/
def witC3stateA : IS.State :=
  { pageLoaded := 0, isLoadMore := false, beforeScrollHeight := 0,
    beforeScrollTop := 0, attached := true }

/-- Freshly mounted state of the part_000 variant. -/
def witC3stateB : P0.State :=
  { pageLoaded := 0, isLoadMore := false, beforeScrollHeight := 0, beforeScrollTop := 0 }


/-
Helper lemmas shared by several claim theorems.
-/

/-- One evaluation of the IS.tsx scroll listener advances the page counter by
exactly the number of loadMore calls it makes. -/
theorem IS.scrollListener_pageLoaded_calls (cfg : Config) (env : ScrollEnv) (s : IS.State) :
    (IS.scrollListener cfg env s).1.pageLoaded =
      s.pageLoaded + ((IS.scrollListener cfg env s).2.length) := by
  by_cases hc : scrollListenerOffset cfg env < cfg.threshold ∧
      env.el.isNull = false ∧ env.el.offsetParent.isNull = false
  · by_cases hlm : cfg.hasLoadMore = true
    · simp [IS.scrollListener, hc, hlm]
    · simp [IS.scrollListener, hc, hlm]
  · simp [IS.scrollListener, hc]

/-- One evaluation of the part_000 scroll listener advances the page counter
by exactly the number of loadMore calls it makes. -/
theorem P0.listener_pageLoaded_calls (cfg : Config) (env : ScrollEnv) (s : P0.State) :
    (P0.scrollListener cfg env s).1.pageLoaded =
      s.pageLoaded + ((P0.scrollListener cfg env s).2.length) := by
  by_cases hc : scrollListenerOffset cfg env ≤ cfg.threshold ∧
      env.el.isNull = false ∧ env.el.offsetParent.isNull = false
  · by_cases hr : cfg.isReverse = true
    · by_cases hlm : cfg.hasLoadMore = true
      · simp [P0.scrollListener, hc, hr, hlm]
      · simp [P0.scrollListener, hc, hr, hlm]
    · by_cases hlm : cfg.hasLoadMore = true
      · simp [P0.scrollListener, hc, hr, hlm]
      · simp [P0.scrollListener, hc, hr, hlm]
  · simp [P0.scrollListener, hc]

/-- Across any sequence of scroll or resize events, the part_000 page counter
advances by exactly the total number of loadMore calls made. -/
theorem P0.runScrollEvents_pageLoaded (cfg : Config) (envs : List ScrollEnv) (s : P0.State) :
    (P0.runScrollEvents cfg s envs).1.pageLoaded =
      s.pageLoaded + ((P0.runScrollEvents cfg s envs).2.length) := by
  induction envs generalizing s with
  | nil => simp [P0.runScrollEvents]
  | cons e rest ih =>
    simp only [P0.runScrollEvents, List.length_append]
    have h1 := P0.listener_pageLoaded_calls cfg e s
    have h2 := ih (P0.scrollListener cfg e s).1
    omega

/-
Claim C1: trigger condition.
-/

/-- C1 counterexample.  At an offset exactly equal to the threshold (250)
with a visible element and a loadMore callback supplied, the IS.tsx scroll
listener makes no loadMore call, although the claimed condition
(offset at most the threshold and a visible element) holds; its comparison
at IS.tsx line 176 is strict. -/
theorem C1_counterexample :
    scrollListenerOffset cexC1cfg cexC1env ≤ cexC1cfg.threshold ∧
    cexC1env.el.isNull = false ∧ cexC1env.el.offsetParent.isNull = false ∧
    cexC1cfg.hasLoadMore = true ∧
    (IS.scrollListener cexC1cfg cexC1env cexC1state).2 = [] := by
  decide

/-- C1 (amended).  With a loadMore callback supplied, a scroll or resize
evaluation triggers a loadMore call in the IS.tsx variant exactly when the
computed offset is strictly below the threshold and the element is visible
(non-null with a non-null offsetParent), and in the part_000 variant
exactly when the offset is at most the threshold and the element is
visible. -/
theorem C1_trigger_characterization (cfg : Config) (env : ScrollEnv)
    (sA : IS.State) (sB : P0.State) (hlm : cfg.hasLoadMore = true) :
    ((IS.scrollListener cfg env sA).2 ≠ [] ↔
      scrollListenerOffset cfg env < cfg.threshold ∧
        env.el.isNull = false ∧ env.el.offsetParent.isNull = false) ∧
    ((P0.scrollListener cfg env sB).2 ≠ [] ↔
      scrollListenerOffset cfg env ≤ cfg.threshold ∧
        env.el.isNull = false ∧ env.el.offsetParent.isNull = false) := by
  constructor
  · by_cases hc : scrollListenerOffset cfg env < cfg.threshold ∧
        env.el.isNull = false ∧ env.el.offsetParent.isNull = false
    · simp [IS.scrollListener, hc, hlm]
    · simp [IS.scrollListener, hc]
  · by_cases hc : scrollListenerOffset cfg env ≤ cfg.threshold ∧
        env.el.isNull = false ∧ env.el.offsetParent.isNull = false
    · by_cases hr : cfg.isReverse = true
      · simp [P0.scrollListener, hc, hr, hlm]
      · simp [P0.scrollListener, hc, hr, hlm]
    · simp [P0.scrollListener, hc]

/-- C1 witness: the amended characterization applied at the threshold-equal
geometry; the IS.tsx variant does not fire there while the part_000 variant
does. -/
theorem C1_trigger_characterization_witness :
    ((IS.scrollListener cexC1cfg cexC1env cexC1state).2 ≠ [] ↔
      scrollListenerOffset cexC1cfg cexC1env < cexC1cfg.threshold ∧
        cexC1env.el.isNull = false ∧ cexC1env.el.offsetParent.isNull = false) ∧
    ((P0.scrollListener cexC1cfg cexC1env witC3stateB).2 ≠ [] ↔
      scrollListenerOffset cexC1cfg cexC1env ≤ cexC1cfg.threshold ∧
        cexC1env.el.isNull = false ∧ cexC1env.el.offsetParent.isNull = false) :=
  C1_trigger_characterization cexC1cfg cexC1env cexC1state witC3stateB rfl

/-
Claim C2: hasMore=false attaches no listeners and renders no loader.
-/

/-- C2.  With hasMore set to false, the IS.tsx variant attaches no listener
and neither variant renders the loader, but the part_000 variant still
registers all three listeners on mount: its hasMore guard (part_000 lines
193-195) is commented out, contradicting the documented contract of the
hasMore prop (part_000 lines 9-13). -/
theorem C2_hasMore_false_listeners :
    cexC2cfg.hasMore = false ∧
    IS.attachScrollListener cexC2cfg true = [] ∧
    RenderChild.loaderContent ∉ childrenArray cexC2cfg ∧
    P0.attachScrollListener cexC2cfg =
      [DOMEvent.mousewheel, DOMEvent.scroll, DOMEvent.resize] := by
  decide

/-
Claim C3: one counter increment and one loadMore call per trigger.
-/

/-- C3.  With a loadMore callback supplied: a triggering evaluation of
either variant's scroll listener increments the page counter by exactly 1
and makes exactly one loadMore call, whose argument is the incremented
counter; any single evaluation makes at most one call; the counter never
decreases across an evaluation, and across any sequence of scroll or resize
events the part_000 counter advances by exactly the number of loadMore
calls made (hence is monotonically non-decreasing between external
pageStart resets). -/
theorem C3_page_counter_increment (cfg : Config) (env : ScrollEnv)
    (sA : IS.State) (sB : P0.State) (envs : List ScrollEnv)
    (hlm : cfg.hasLoadMore = true) :
    (scrollListenerOffset cfg env < cfg.threshold → env.el.isNull = false →
      env.el.offsetParent.isNull = false →
      (IS.scrollListener cfg env sA).1.pageLoaded = sA.pageLoaded + 1 ∧
      (IS.scrollListener cfg env sA).2 = [sA.pageLoaded + 1]) ∧
    (scrollListenerOffset cfg env ≤ cfg.threshold → env.el.isNull = false →
      env.el.offsetParent.isNull = false →
      (P0.scrollListener cfg env sB).1.pageLoaded = sB.pageLoaded + 1 ∧
      (P0.scrollListener cfg env sB).2 = [sB.pageLoaded + 1]) ∧
    (IS.scrollListener cfg env sA).2.length ≤ 1 ∧
    (P0.scrollListener cfg env sB).2.length ≤ 1 ∧
    sA.pageLoaded ≤ (IS.scrollListener cfg env sA).1.pageLoaded ∧
    sB.pageLoaded ≤ (P0.scrollListener cfg env sB).1.pageLoaded ∧
    (P0.runScrollEvents cfg sB envs).1.pageLoaded =
      sB.pageLoaded + ((P0.runScrollEvents cfg sB envs).2.length) := by
  refine ⟨?_, ?_, ?_, ?_, ?_, ?_, P0.runScrollEvents_pageLoaded cfg envs sB⟩
  · intro h1 h2 h3
    simp [IS.scrollListener, And.intro h1 (And.intro h2 h3), hlm]
  · intro h1 h2 h3
    by_cases hr : cfg.isReverse = true <;>
      simp [P0.scrollListener, And.intro h1 (And.intro h2 h3), hr, hlm]
  · by_cases hc : scrollListenerOffset cfg env < cfg.threshold ∧
        env.el.isNull = false ∧ env.el.offsetParent.isNull = false
    · by_cases hl : cfg.hasLoadMore = true <;> simp [IS.scrollListener, hc, hl]
    · simp [IS.scrollListener, hc]
  · by_cases hc : scrollListenerOffset cfg env ≤ cfg.threshold ∧
        env.el.isNull = false ∧ env.el.offsetParent.isNull = false
    · by_cases hr : cfg.isReverse = true <;>
        by_cases hl : cfg.hasLoadMore = true <;>
          simp [P0.scrollListener, hc, hr, hl]
    · simp [P0.scrollListener, hc]
  · have h := IS.scrollListener_pageLoaded_calls cfg env sA
    omega
  · have h := P0.listener_pageLoaded_calls cfg env sB
    omega

/-- C3 witness: at a concrete triggering geometry (offset 250 strictly below
threshold 300, visible element, fresh state), the part_000 listener makes
exactly the single call loadMore 1. -/
theorem C3_page_counter_increment_witness :
    (P0.scrollListener witC3cfg witC3env witC3stateB).2 = [1] := by
  have h := C3_page_counter_increment witC3cfg witC3env witC3stateA witC3stateB [] rfl
  have h2 := h.2.1 (by decide) (by decide) (by decide)
  rw [h2.2]
  decide

/-
Claim C4: reverse-mode scroll compensation after a trigger.
-/

/-- C4 counterexample.  In the IS.tsx variant, with reverse mode on and the
pending flag set (snapshot: beforeScrollHeight 40, beforeScrollTop 10; new
scroll height 100, current position 0), the post-render effect leaves the
scroll position at 0 instead of the claimed 100 - 40 + 10 = 70 and leaves
the pending flag set: the compensation block at IS.tsx lines 236-240 is
commented out. -/
theorem C4_counterexample :
    cexC4cfg.isReverse = true ∧ cexC4state.isLoadMore = true ∧
    (IS.postRenderEffect cexC4cfg cexC4state 100 0).1 ≠
      100 - cexC4state.beforeScrollHeight + cexC4state.beforeScrollTop ∧
    (IS.postRenderEffect cexC4cfg cexC4state 100 0).2.isLoadMore = true := by
  decide

/-- C4 (amended).  In the part_000 variant the claim holds end to end: after
a reverse-mode trigger (which snapshots the element's scrollHeight and the
just-computed offset), the post-render effect sets the scroll position to
exactly newScrollHeight - snapshotted scrollHeight + snapshotted offset and
clears the pending flag.  In the IS.tsx variant the compensation block is
commented out and no adjustment happens (see the counterexample). -/
theorem C4_reverse_compensation (cfg : Config) (env : ScrollEnv) (s : P0.State)
    (newScrollHeight curScrollTop : Int)
    (hrev : cfg.isReverse = true) (hlm : cfg.hasLoadMore = true)
    (hoff : scrollListenerOffset cfg env ≤ cfg.threshold)
    (hel : env.el.isNull = false) (hvis : env.el.offsetParent.isNull = false) :
    P0.reverseCompensationEffect cfg (P0.scrollListener cfg env s).1
        newScrollHeight curScrollTop =
      (newScrollHeight - env.el.scrollHeight + scrollListenerOffset cfg env,
        { (P0.scrollListener cfg env s).1 with isLoadMore := false }) := by
  have hc : scrollListenerOffset cfg env ≤ cfg.threshold ∧
      env.el.isNull = false ∧ env.el.offsetParent.isNull = false := ⟨hoff, hel, hvis⟩
  simp [P0.scrollListener, P0.reverseCompensationEffect, hc, hrev, hlm]

/-- C4 witness: the amended compensation equation applied at a concrete
reverse-mode trigger (offset 100, element scrollHeight 500, new scroll
height 800), yielding scroll position 800 - 500 + 100 = 400. -/
theorem C4_reverse_compensation_witness :
    P0.reverseCompensationEffect witC4cfg
        (P0.scrollListener witC4cfg witC4env witC4state).1 800 5 =
      (800 - witC4env.el.scrollHeight + scrollListenerOffset witC4cfg witC4env,
        { (P0.scrollListener witC4cfg witC4env witC4state).1 with isLoadMore := false }) :=
  C4_reverse_compensation witC4cfg witC4env witC4state 800 5 rfl rfl
    (by decide) rfl rfl

/-
Claim C5: forward window-mode offset formula.
-/

/-- Formula of the spec sentence for forward window mode, reading the
container's scrollHeight where the source reads offsetHeight; defined only
to compare the spec wording with the source computation. -/
def calculateOffsetSpecC5 (el : DOMElem) (scrollY windowInnerHeight : Int) : Int :=
  calculateTopPosition el + el.scrollHeight - scrollY - windowInnerHeight

/-- C5 counterexample.  For a visible-geometry element whose offsetHeight
(10) and scrollHeight (20) differ, in forward window mode with scroll
position 0 and window inner height 0, the computed offset is 10 (it uses
offsetHeight, IS.tsx line 134) while the claimed formula using scrollHeight
gives 20. -/
theorem C5_counterexample :
    cexC5cfg.useWindow = true ∧ cexC5cfg.isReverse = false ∧
    cexC5env.pageYOffset = some 0 ∧
    scrollListenerOffset cexC5cfg cexC5env = 10 ∧
    calculateOffsetSpecC5 cexC5env.el 0 0 = 20 ∧
    scrollListenerOffset cexC5cfg cexC5env ≠ calculateOffsetSpecC5 cexC5env.el 0 0 := by
  decide

/-- C5 (amended).  In forward window mode, with pageYOffset defined and a
non-null container element, the computed offset equals the cumulative
offsetTop through the offsetParent chain plus the container's own
offsetHeight (not its scrollHeight) minus the window scroll position minus
the window inner height. -/
theorem C5_forward_window_offset (cfg : Config) (env : ScrollEnv) (y : Int)
    (hw : cfg.useWindow = true) (hr : cfg.isReverse = false)
    (hy : env.pageYOffset = some y) (hel : env.el.isNull = false) :
    scrollListenerOffset cfg env =
      calculateTopPosition env.el + env.el.offsetHeight - y - env.windowInnerHeight := by
  cases henv : env.el with
  | null => rw [henv] at hel; simp [DOMElem.isNull] at hel
  | mk t h s p =>
    simp only [scrollListenerOffset, hw, hr, windowScrollTop, hy, henv,
      calculateOffset, DOMElem.offsetHeight, if_true, if_false]
    simp
    ring

/-- C5 witness: the amended formula applied at a concrete nested chain
(offsetTop 7 over offsetTop 5, offsetHeight 40, window scroll 3, inner
height 11). -/
theorem C5_forward_window_offset_witness :
    scrollListenerOffset cexC5cfg witC5env =
      calculateTopPosition witC5env.el + witC5env.el.offsetHeight - 3 -
        witC5env.windowInnerHeight :=
  C5_forward_window_offset cexC5cfg witC5env 3 rfl rfl rfl rfl

/-
Claim C6: forward container-mode offset formula.
-/

/-- Formula of the spec sentence for forward container mode, reading all
three quantities from the scrollable ancestor; defined only to compare the
spec wording with the source computation, which reads scrollHeight from the
widget's own element instead. -/
def containerOffsetSpecC6 (env : ScrollEnv) : Int :=
  env.parentScrollHeight - env.parentScrollTop - env.parentClientHeight

/-- C6 counterexample.  For a geometry whose element scrollHeight (100)
differs from the scroll parent's scrollHeight (150), with parent scrollTop
0 and clientHeight 50, the computed offset is 100 - 0 - 50 = 50 (IS.tsx
line 172 reads el.scrollHeight) while the claimed all-ancestor formula
gives 150 - 0 - 50 = 100. -/
theorem C6_counterexample :
    cexC6cfg.useWindow = false ∧ cexC6cfg.isReverse = false ∧
    scrollListenerOffset cexC6cfg cexC6env = 50 ∧
    containerOffsetSpecC6 cexC6env = 100 ∧
    scrollListenerOffset cexC6cfg cexC6env ≠ containerOffsetSpecC6 cexC6env := by
  decide

/-- C6 (amended).  In forward container mode the computed offset equals the
widget element's own scrollHeight minus the scroll parent's scrollTop minus
the scroll parent's clientHeight; the first term is read from the element,
not from the scrollable ancestor. -/
theorem C6_forward_container_offset (cfg : Config) (env : ScrollEnv)
    (hw : cfg.useWindow = false) (hr : cfg.isReverse = false) :
    scrollListenerOffset cfg env =
      env.el.scrollHeight - env.parentScrollTop - env.parentClientHeight := by
  simp [scrollListenerOffset, hw, hr]

/-- C6 witness: the amended formula applied at the concrete geometry of the
counterexample, where it evaluates to 50. -/
theorem C6_forward_container_offset_witness :
    scrollListenerOffset cexC6cfg cexC6env =
      cexC6env.el.scrollHeight - cexC6env.parentScrollTop - cexC6env.parentClientHeight :=
  C6_forward_container_offset cexC6cfg cexC6env rfl rfl

/-
Claim C7: pageStart sentinel semantics.
-/

/-- C7.  On every (re-)initialization the page counter becomes 0 when the
configured pageStart is the sentinel -1 and pageStart itself for any other
value; in particular moving pageStart from 0 to -1 re-initializes the
counter to 0 and moving it from -1 to a non-negative value re-initializes
the counter to that value. -/
theorem C7_pageStart_sentinel :
    pageLoadedInit (-1) = 0 ∧ ∀ p : Int, p ≠ -1 → pageLoadedInit p = p := by
  constructor
  · decide
  · intro p hp
    simp [pageLoadedInit, hp]

/-- C7 witness: re-initializing with the non-sentinel value 7 sets the
counter to 7. -/
theorem C7_pageStart_sentinel_witness : pageLoadedInit 7 = 7 :=
  C7_pageStart_sentinel.2 7 (by decide)

/-
Claim C8: wheel listener preventDefault condition.
-/

/-- C8 counterexample.  A wheel event with deltaY 2 scrolls in the forward
direction, yet with passive listeners unsupported the listener does not
call preventDefault: the source condition (IS.tsx line 150) is the exact
equality deltaY === 1, not a direction test. -/
theorem C8_counterexample :
    (0 : Int) < 2 ∧ mousewheelListener false { deltaY := 2 } = false := by
  decide

/-- C8 (amended).  The wheel listener calls preventDefault exactly when
passive listeners are unsupported and the event's deltaY equals exactly 1;
whenever passive listeners are supported it performs no action for every
event. -/
theorem C8_mousewheel_preventDefault (p : Bool) (e : WheelEvent) :
    (mousewheelListener p e = true ↔ e.deltaY = 1 ∧ p = false) ∧
    mousewheelListener true e = false := by
  constructor
  · unfold mousewheelListener
    split <;> simp_all
  · unfold mousewheelListener
    simp

/-
Claim C9: geometry helpers tolerate null elements.
-/

/-- C9.  On a null element reference both geometry helpers return 0:
calculateTopPosition maps null to 0 and calculateOffset maps a null element
to 0 for every scroll position and window inner height. -/
theorem C9_null_geometry :
    calculateTopPosition DOMElem.null = 0 ∧
    ∀ scrollTop windowInnerHeight : Int,
      calculateOffset DOMElem.null scrollTop windowInnerHeight = 0 :=
  ⟨rfl, fun _ _ => rfl⟩

/-
Claim C10: calculateTopPosition terminates on finite chains and sums
offsetTop over the chain.
-/

/-- List of elements along an offsetParent chain, starting at the given
element; the inductive element type makes every such chain finite and
null-terminated, which is exactly the finite-chain hypothesis of the
claim. -/
def offsetParentChain : DOMElem → List DOMElem
  | .null => []
  | .mk t h s p => .mk t h s p :: offsetParentChain p

/-- C10.  On every element whose offsetParent chain is finite and
null-terminated (all values of the model, by construction), the structurally
recursive calculateTopPosition terminates and returns the sum of offsetTop
over the chain. -/
theorem C10_topPosition_chain_sum (el : DOMElem) :
    calculateTopPosition el = ((offsetParentChain el).map DOMElem.offsetTop).sum := by
  induction el with
  | null => simp [calculateTopPosition, offsetParentChain]
  | mk t h s p ih => simp [calculateTopPosition, offsetParentChain, DOMElem.offsetTop, ih]
